import Mathlib

set_option linter.unusedVariables false

/-!
Shallow embedding of the football_scout core (src/football_scout) in Lean 4.

Python numeric values are modelled as follows: Python `int` (unbounded) is
`Int`, Python `float` arithmetic on the small decimal quantities this code
handles is modelled over `ℚ`, and Python `None`/exceptions are `Option`/
`Except`.  Strings are Lean `String`/`List Char`; `str.lower()` is
`Char.toLower` (the repository only ever cares about ASCII letters).
-/

namespace FootballScout

/-- Embeds `PlayerInfo` (models/player.py): biographical fields; everything
except `player_id` and `name` is optional with default `None`. -/
structure PlayerInfo where
  player_id : String
  name : String
  position : Option String := none
  age : Option String := none
  nationality : Option String := none
  height : Option String := none
  preferred_foot : Option String := none
  current_club : Option String := none
  market_value : Option String := none
  joined_current_club : Option String := none
  contract_expires : Option String := none
deriving Repr, DecidableEq

/-- Embeds `SeasonStats` (models/player.py): a season label and six counters
typed as plain Python `int` with default `0`.  Pydantic `int` fields accept
any integer, so the counters are `Int`, not `Nat`. -/
structure SeasonStats where
  season : String
  appearances : Int := 0
  goals : Int := 0
  assists : Int := 0
  yellow_cards : Int := 0
  red_cards : Int := 0
  minutes_played : Int := 0
deriving Repr, DecidableEq

/-- Embeds `NormalizedStats` (models/player.py): four integer totals and five
float rates, all defaulting to zero. -/
structure NormalizedStats where
  total_goals : Int := 0
  total_assists : Int := 0
  total_appearances : Int := 0
  total_minutes : Int := 0
  goals_per_game : ℚ := 0
  assists_per_game : ℚ := 0
  minutes_per_game : ℚ := 0
  goals_per_90 : ℚ := 0
  assists_per_90 : ℚ := 0
deriving Repr, DecidableEq

/-- Embeds `Player` (models/player.py).  The `scouted_at` wall-clock
timestamp is environment-supplied and irrelevant to every catalog and
analyzer operation, so it is not carried in the embedding. -/
structure Player where
  info : PlayerInfo
  seasons : List SeasonStats := []
  normalized_stats : Option NormalizedStats := none
deriving Repr, DecidableEq

/-! ## Text-parsing helpers

`PlayerAnalyzer._parse_market_value` calls Python's `float(str)` and
`PlayerAnalyzer._parse_age` uses the regex `\d+`; the helpers below embed
those library behaviours on the decimal inputs this repository feeds them
(optional sign, digit runs, one decimal point, optional exponent; ASCII
whitespace and digits). -/

/-- ASCII whitespace accepted by Python `str.strip()` and `float()`. -/
def pySpace (c : Char) : Bool :=
  c = ' ' ∨ c = '\t' ∨ c = '\n' ∨ c = '\r' ∨ c = '\x0b' ∨ c = '\x0c'

/-- Remove leading and trailing whitespace, as `str.strip()` does. -/
def stripEnds (s : List Char) : List Char :=
  (((s.dropWhile pySpace).reverse).dropWhile pySpace).reverse

/-- Value of a run of decimal digit characters. -/
def digitsToNat (ds : List Char) : Nat :=
  ds.foldl (fun n c => 10 * n + (c.toNat - 48)) 0

/-- The four pieces of a decoded float literal, kept in integer form so a
decoded literal is decidably comparable: sign, mantissa-digit value,
number of fractional digits, exponent. -/
structure FloatParts where
  sign : Int
  mantissa : Nat
  fracLen : Nat
  exponent : Int
deriving Repr, DecidableEq

/-- Exponent tail of a float literal: `[+|-] digits`, nothing after. -/
def parseExp (sign : Int) (mantissa fracLen : Nat) (s : List Char) : Option FloatParts :=
  let p : Int × List Char :=
    match s with
    | '+' :: t => (1, t)
    | '-' :: t => (-1, t)
    | t => (1, t)
  let ed := p.2.takeWhile Char.isDigit
  let rest := p.2.dropWhile Char.isDigit
  if ed.isEmpty ∨ ¬ rest.isEmpty then none
  else some ⟨sign, mantissa, fracLen, p.1 * (digitsToNat ed : Int)⟩

/-- Decode a stripped float literal
`[+|-] (digits [. digits] | . digits) [(e|E) [+|-] digits]`
into its integer pieces. -/
def pyFloatCore (s : List Char) : Option FloatParts :=
  let p : Int × List Char :=
    match s with
    | '+' :: t => (1, t)
    | '-' :: t => (-1, t)
    | t => (1, t)
  let ip := p.2.takeWhile Char.isDigit
  let s2 := p.2.dropWhile Char.isDigit
  let q : List Char × List Char :=
    match s2 with
    | '.' :: t => (t.takeWhile Char.isDigit, t.dropWhile Char.isDigit)
    | t => ([], t)
  if ip.isEmpty ∧ q.1.isEmpty then none
  else
    match q.2 with
    | [] => some ⟨p.1, digitsToNat (ip ++ q.1), q.1.length, 0⟩
    | 'e' :: t => parseExp p.1 (digitsToNat (ip ++ q.1)) q.1.length t
    | 'E' :: t => parseExp p.1 (digitsToNat (ip ++ q.1)) q.1.length t
    | _ => none

/-- Numeric value of a decoded float literal. -/
def FloatParts.val (p : FloatParts) : ℚ :=
  (p.sign : ℚ) * ((p.mantissa : ℚ) / (10 : ℚ) ^ p.fracLen) * (10 : ℚ) ^ p.exponent

/-- Embeds Python `float(s)` on decimal literals: surrounding whitespace is
ignored; any other residual character makes parsing fail (`ValueError`,
i.e. `none`). -/
def pyFloat (s : List Char) : Option ℚ :=
  (pyFloatCore (stripEnds s)).map FloatParts.val

/-! ## PlayerAnalyzer (core/analyzer.py) -/

/-- Embeds `PlayerAnalyzer.normalize_stats`: elementwise totals, per-game
rates guarded by `total_appearances > 0`, per-90 rates guarded by
`total_minutes > 0`. -/
def normalize_stats (seasons : List SeasonStats) : NormalizedStats :=
  let total_goals := (seasons.map (fun s => s.goals)).sum
  let total_assists := (seasons.map (fun s => s.assists)).sum
  let total_appearances := (seasons.map (fun s => s.appearances)).sum
  let total_minutes := (seasons.map (fun s => s.minutes_played)).sum
  { total_goals := total_goals
    total_assists := total_assists
    total_appearances := total_appearances
    total_minutes := total_minutes
    goals_per_game :=
      if 0 < total_appearances then (total_goals : ℚ) / (total_appearances : ℚ) else 0
    assists_per_game :=
      if 0 < total_appearances then (total_assists : ℚ) / (total_appearances : ℚ) else 0
    minutes_per_game :=
      if 0 < total_appearances then (total_minutes : ℚ) / (total_appearances : ℚ) else 0
    goals_per_90 :=
      if 0 < total_minutes then ((total_goals : ℚ) / (total_minutes : ℚ)) * 90 else 0
    assists_per_90 :=
      if 0 < total_minutes then ((total_assists : ℚ) / (total_minutes : ℚ)) * 90 else 0 }

/-- Embeds `PlayerAnalyzer._parse_market_value`: `None`, `""` and
`"Not found"` give `0.0`; the currency symbols €, $, £ are removed and the
ends stripped; if the letter `m` occurs anywhere in the lowercased text the
multiplier is 1,000,000 and every `m` is removed from the lowercased text,
else if `k` occurs the multiplier is 1,000 and every `k` is removed;
the remainder goes through `float`, any failure giving `0.0`. -/
def parse_market_value (value_str : Option String) : ℚ :=
  match value_str with
  | none => 0
  | some v =>
    if v = "" ∨ v = "Not found" then 0
    else
      let cleaned := stripEnds (v.data.filter (fun c => ¬ (c = '€' ∨ c = '$' ∨ c = '£')))
      let low := cleaned.map Char.toLower
      if low.contains 'm' then
        match pyFloat (low.filter (fun c => c ≠ 'm')) with
        | some x => x * 1000000
        | none => 0
      else if low.contains 'k' then
        match pyFloat (low.filter (fun c => c ≠ 'k')) with
        | some x => x * 1000
        | none => 0
      else
        match pyFloat cleaned with
        | some x => x
        | none => 0

/-- Embeds `PlayerAnalyzer.calculate_value_score`: `0.0` without normalized
stats or with a parsed market value ≤ 0, otherwise
`((goals_per_90 * 10 + assists_per_90 * 5) / market_value) * 10_000_000`. -/
def calculate_value_score (player : Player) : ℚ :=
  match player.normalized_stats with
  | none => 0
  | some stats =>
    let market_value := parse_market_value player.info.market_value
    if market_value ≤ 0 then 0
    else ((stats.goals_per_90 * 10 + stats.assists_per_90 * 5) / market_value) * 10000000

/-- First maximal run of decimal digits in a character list, as a number:
embeds `re.search(r'\d+', s)` followed by `int(...)`. -/
def firstDigitRun : List Char → Option Nat
  | [] => none
  | c :: t =>
    if c.isDigit then some (digitsToNat (c :: t.takeWhile Char.isDigit))
    else firstDigitRun t

/-- Embeds `PlayerAnalyzer._parse_age`: `None` and `""` give no age,
otherwise the first run of digits in the text (or no age when there is
none). -/
def parse_age (age_str : Option String) : Option Nat :=
  match age_str with
  | none => none
  | some s => if s = "" then none else firstDigitRun s.data

/-- The season-level snapshot built by the inner `get_stats_at_age` of
`PlayerAnalyzer.compare_at_age`. -/
structure AgeSnapshot where
  season : String
  goals : Int
  assists : Int
  appearances : Int
  minutes : Int
  goals_per_game : ℚ
deriving Repr, DecidableEq

/-- Embeds the inner `get_stats_at_age` of `PlayerAnalyzer.compare_at_age`:
no data without seasons or a parseable current age, or when
`seasons_back = current_age - target_age` falls outside the season list;
otherwise the season at index `seasons_back` with its single-season
goals-per-game rate. -/
def get_stats_at_age (player : Player) (target_age : Int) : Option AgeSnapshot :=
  if player.seasons.isEmpty then none
  else
    match parse_age player.info.age with
    | none => none
    | some current_age =>
      let seasons_back : Int := (current_age : Int) - target_age
      if seasons_back < 0 ∨ (player.seasons.length : Int) ≤ seasons_back then none
      else
        match player.seasons.get? seasons_back.toNat with
        | none => none
        | some target_season =>
          some
            { season := target_season.season
              goals := target_season.goals
              assists := target_season.assists
              appearances := target_season.appearances
              minutes := target_season.minutes_played
              goals_per_game :=
                if 0 < target_season.appearances then
                  (target_season.goals : ℚ) / (target_season.appearances : ℚ)
                else 0 }

/-- Result record of `PlayerAnalyzer.compare_at_age`. -/
structure AgeComparison where
  age : Int
  player1_name : String
  player1_stats : Option AgeSnapshot
  player2_name : String
  player2_stats : Option AgeSnapshot
deriving Repr, DecidableEq

/-- Embeds `PlayerAnalyzer.compare_at_age`: both players go through
`get_stats_at_age` at the same target age. -/
def compare_at_age (player1 player2 : Player) (age : Int) : AgeComparison :=
  { age := age
    player1_name := player1.info.name
    player1_stats := get_stats_at_age player1 age
    player2_name := player2.info.name
    player2_stats := get_stats_at_age player2 age }

/-! ## FootballScoutAI catalog (core/agent.py)

The agent keeps `self._players : dict[str, Player]`.  A Python dict is an
insertion-ordered map with unique keys, embedded here as an association
list: updating an existing key replaces the value in place, a new key is
appended, and `.values()` iterates in that order. -/

/-- Embeds Python `str.lower()` (ASCII case folding, which covers every
name this repository stores or queries). -/
def strLower (s : String) : String := ⟨s.data.map Char.toLower⟩

/-- Embeds the exceptions of exceptions.py that the agent raises. -/
inductive ScoutError where
  | noPlayersScouted (msg : String)
  | playerNotFound (name : String)
deriving Repr, DecidableEq

/-- Python dict update `d[k] = v` on an insertion-ordered association
list. -/
def dictInsert (k : String) (v : Player) : List (String × Player) → List (String × Player)
  | [] => [(k, v)]
  | e :: t => if e.1 = k then (k, v) :: t else e :: dictInsert k v t

/-- Python dict lookup `d.get(k)` on an association list. -/
def dictGet (k : String) : List (String × Player) → Option Player
  | [] => none
  | e :: t => if e.1 = k then some e.2 else dictGet k t

/-- The agent's in-memory catalog state. -/
structure Catalog where
  players : List (String × Player) := []
deriving Repr, DecidableEq

/-- Embeds the catalog-update step of `FootballScoutAI.scout_player`
(agent.py line 55): `self._players[player_name.lower()] = player`.  The
scraping and normalization that build `player`, and the file save, are
external I/O around this step. -/
def scout_store (c : Catalog) (player_name : String) (player : Player) : Catalog :=
  { players := dictInsert (strLower player_name) player c.players }

/-- Embeds `FootballScoutAI.get_scouted_player`:
`self._players.get(player_name.lower())`. -/
def get_scouted_player (c : Catalog) (player_name : String) : Option Player :=
  dictGet (strLower player_name) c.players

/-- Embeds `FootballScoutAI.get_all_scouted_players`: the stored players in
insertion order. -/
def get_all_scouted_players (c : Catalog) : List Player :=
  c.players.map Prod.snd

/-- `value or 'N/A'` on an optional info field: `None` and `""` are falsy. -/
def orNA (o : Option String) : String :=
  match o with
  | some s => if s = "" then "N/A" else s
  | none => "N/A"

/-- One `  - name: value` line of the comparison text. -/
def infoLine (p : Player) (value : String) : String :=
  "  - " ++ p.info.name ++ ": " ++ value ++ "\n"

/-- The `['name', 'position', ...]` loop of `compare_players`, with each
attribute name paired with its accessor and its
`category.replace('_', ' ').title()` label, replacing the `getattr`
reflection by an explicit table. -/
def categoryAccessors : List (String × (PlayerInfo → Option String)) :=
  [("Name", fun i => some i.name),
   ("Position", fun i => i.position),
   ("Age", fun i => i.age),
   ("Nationality", fun i => i.nationality),
   ("Current Club", fun i => i.current_club),
   ("Market Value", fun i => i.market_value)]

/-- Round to the nearest integer, ties to even, as float formatting does. -/
def roundHalfEven (q : ℚ) : Int :=
  let f := ⌊q⌋
  let r := q - f
  if r < 1 / 2 then f
  else if 1 / 2 < r then f + 1
  else if f % 2 = 0 then f else f + 1

/-- Embeds the `f"{value:.2f}"` rendering of a rate (the float value itself
being modelled as the exact rational). -/
def formatF2 (q : ℚ) : String :=
  let n := roundHalfEven (q * 100)
  let sgn := if n < 0 then "-" else ""
  let m := n.natAbs
  sgn ++ toString (m / 100) ++ "." ++ (if m % 100 < 10 then "0" else "") ++ toString (m % 100)

/-- The metrics loop of `compare_players`, each metric paired with its
accessor and its `metric.replace('_', ' ').title()` label. -/
def metricAccessors : List (String × (NormalizedStats → ℚ)) :=
  [("Goals Per Game", fun s => s.goals_per_game),
   ("Assists Per Game", fun s => s.assists_per_game),
   ("Goals Per 90", fun s => s.goals_per_90),
   ("Assists Per 90", fun s => s.assists_per_90),
   ("Minutes Per Game", fun s => s.minutes_per_game)]

/-- Embeds `FootballScoutAI.compare_players`: resolve the requested names
(lower-cased) against the catalog, drop the misses, raise
`NoPlayersScoutedError` (here: `Except.error`) when fewer than 2 resolve,
and otherwise assemble the comparison text. -/
def compare_players (c : Catalog) (player_names : List String) : Except ScoutError String :=
  let players := (player_names.map fun n => dictGet (strLower n) c.players).filterMap id
  if players.length < 2 then
    Except.error (ScoutError.noPlayersScouted "Need at least 2 scouted players to compare")
  else
    let categoryBlock := String.join (categoryAccessors.map fun cat =>
      cat.1 ++ ":\n" ++ String.join (players.map fun p => infoLine p (orNA (cat.2 p.info))) ++ "\n")
    let metricBlock := String.join (metricAccessors.map fun m =>
      "\n" ++ m.1 ++ ":\n" ++ String.join (players.map fun p =>
        match p.normalized_stats with
        | some ns => infoLine p (formatF2 (m.2 ns))
        | none => infoLine p "N/A"))
    Except.ok ("Player Comparison:\n\n" ++ categoryBlock ++ "Performance Metrics:\n" ++ metricBlock)

/-- The body of the `for player in self._players.values()` loop of
`FootballScoutAI.find_hidden_gems`: skip a player without normalized stats
or with too few appearances, otherwise keep the player with a positive
value score. -/
def gemCandidate (min_appearances : Int) (player : Player) : Option (Player × ℚ) :=
  match player.normalized_stats with
  | none => none
  | some ns =>
    if ns.total_appearances < min_appearances then none
    else
      let value_score := calculate_value_score player
      if 0 < value_score then some (player, value_score) else none

/-- Ordering used by `gems.sort(key=lambda x: x[1], reverse=True)`:
descending by score. -/
def scoreGe (a b : Player × ℚ) : Prop := b.2 ≤ a.2

instance : DecidableRel scoreGe := fun a b => inferInstanceAs (Decidable (b.2 ≤ a.2))

instance : IsTotal (Player × ℚ) scoreGe := ⟨fun a b => le_total b.2 a.2⟩

instance : IsTrans (Player × ℚ) scoreGe := ⟨fun _ _ _ hab hbc => le_trans hbc hab⟩

/-- Embeds `FootballScoutAI.find_hidden_gems`: collect the qualifying
(player, score) pairs in catalog insertion order, then sort them with
Python's stable `list.sort(key=score, reverse=True)`, embedded as a stable
insertion sort under `scoreGe`.  The `max_value` argument is accepted, as
in the source, and never read. -/
def find_hidden_gems (c : Catalog) (max_value : ℚ) (min_appearances : Int) : List (Player × ℚ) :=
  List.insertionSort scoreGe ((c.players.map Prod.snd).filterMap (gemCandidate min_appearances))

/-- Discriminator for the two outcomes of `compare_players`: `true` exactly
when the call returns a comparison instead of raising. -/
def isOkB : Except ScoutError String → Bool
  | Except.ok _ => true
  | Except.error _ => false

/-- The selection predicate of `find_hidden_gems` as the specification
states it: normalized stats present, enough appearances, positive value
score. -/
def qualifies (min_appearances : Int) (p : Player) : Bool :=
  match p.normalized_stats with
  | none => false
  | some ns => min_appearances ≤ ns.total_appearances ∧ 0 < calculate_value_score p

/-! ## Concrete fixtures (mirroring tests/conftest.py) -/

/-- A player with only the required fields, used for catalog theorems. -/
def plainPlayer (nm : String) : Player :=
  { info := { player_id := "1", name := nm } }

/-- The two seasons of the `sample_season_stats` fixture. -/
def sampleSeasons : List SeasonStats :=
  [{ season := "2024", appearances := 30, goals := 15, assists := 10,
     yellow_cards := 3, red_cards := 0, minutes_played := 2500 },
   { season := "2023", appearances := 25, goals := 10, assists := 8,
     yellow_cards := 2, red_cards := 0, minutes_played := 2000 }]

/-- The exact normalized stats of `sampleSeasons`. -/
def sampleNormalized : NormalizedStats :=
  { total_goals := 25, total_assists := 18, total_appearances := 55, total_minutes := 4500,
    goals_per_game := 5 / 11, assists_per_game := 18 / 55, minutes_per_game := 900 / 11,
    goals_per_90 := 1 / 2, assists_per_90 := 9 / 25 }

/-- The `sample_player` fixture: biographical info, two seasons, stats. -/
def samplePlayer : Player :=
  { info := { player_id := "123456", name := "Test Player",
              position := some "Attacking Midfield", age := some "23",
              nationality := some "Germany", height := some "180 cm",
              preferred_foot := some "Right", current_club := some "Test FC",
              market_value := some "€10.00m" },
    seasons := sampleSeasons,
    normalized_stats := some sampleNormalized }

/-! ## Evaluation lemmas for the market-value parser -/

theorem parse_mv_of_m (v : String) (ds : List Char) (p : FloatParts)
    (h0 : ¬ (v = "" ∨ v = "Not found"))
    (hclean : stripEnds (v.data.filter (fun c => ¬ (c = '€' ∨ c = '$' ∨ c = '£'))) = ds)
    (hm : (ds.map Char.toLower).contains 'm' = true)
    (hf : pyFloatCore (stripEnds ((ds.map Char.toLower).filter (fun c => c ≠ 'm'))) = some p) :
    parse_market_value (some v) = p.val * 1000000 := by
  simp only [parse_market_value, hclean, pyFloat, hm, hf, if_neg h0, if_true, Option.map_some']

theorem parse_mv_of_m_none (v : String) (ds : List Char)
    (h0 : ¬ (v = "" ∨ v = "Not found"))
    (hclean : stripEnds (v.data.filter (fun c => ¬ (c = '€' ∨ c = '$' ∨ c = '£'))) = ds)
    (hm : (ds.map Char.toLower).contains 'm' = true)
    (hf : pyFloatCore (stripEnds ((ds.map Char.toLower).filter (fun c => c ≠ 'm'))) = none) :
    parse_market_value (some v) = 0 := by
  simp only [parse_market_value, hclean, pyFloat, hm, hf, if_neg h0, if_true, Option.map_none']

theorem parse_mv_of_k (v : String) (ds : List Char) (p : FloatParts)
    (h0 : ¬ (v = "" ∨ v = "Not found"))
    (hclean : stripEnds (v.data.filter (fun c => ¬ (c = '€' ∨ c = '$' ∨ c = '£'))) = ds)
    (hm : (ds.map Char.toLower).contains 'm' = false)
    (hk : (ds.map Char.toLower).contains 'k' = true)
    (hf : pyFloatCore (stripEnds ((ds.map Char.toLower).filter (fun c => c ≠ 'k'))) = some p) :
    parse_market_value (some v) = p.val * 1000 := by
  simp only [parse_market_value, hclean, pyFloat, hm, hk, hf, if_neg h0, if_true,
    Bool.false_eq_true, if_false, Option.map_some']

theorem parse_mv_of_k_none (v : String) (ds : List Char)
    (h0 : ¬ (v = "" ∨ v = "Not found"))
    (hclean : stripEnds (v.data.filter (fun c => ¬ (c = '€' ∨ c = '$' ∨ c = '£'))) = ds)
    (hm : (ds.map Char.toLower).contains 'm' = false)
    (hk : (ds.map Char.toLower).contains 'k' = true)
    (hf : pyFloatCore (stripEnds ((ds.map Char.toLower).filter (fun c => c ≠ 'k'))) = none) :
    parse_market_value (some v) = 0 := by
  simp only [parse_market_value, hclean, pyFloat, hm, hk, hf, if_neg h0, if_true,
    Bool.false_eq_true, if_false, Option.map_none']

/-- C1: the documented market-value examples, evaluated on the code.  The
tests and the specification expect `"EUR 10.00m"` ↦ 10,000,000 and
`"EUR 500k"` ↦ 500,000, but the code only strips the symbols €, $ and £,
so the residual text `eur 10.00` / `eur 500` fails float parsing and both
return 0; the same amounts written with a currency symbol parse as
documented, as do the `"Not found"` and absent-value sentinels. -/
theorem parse_market_value_eur_inputs :
    parse_market_value (some "EUR 10.00m") = 0 ∧
    parse_market_value (some "EUR 500k") = 0 ∧
    parse_market_value (some "€10.00m") = 10000000 ∧
    parse_market_value (some "Not found") = 0 ∧
    parse_market_value none = 0 := by
  refine ⟨?_, ?_, ?_, ?_, ?_⟩
  · exact parse_mv_of_m_none "EUR 10.00m" "EUR 10.00m".data
      (by decide) (by decide) (by decide) (by decide)
  · exact parse_mv_of_k_none "EUR 500k" "EUR 500k".data
      (by decide) (by decide) (by decide) (by decide) (by decide)
  · rw [parse_mv_of_m "€10.00m" ['1', '0', '.', '0', '0', 'm'] ⟨1, 1000, 2, 0⟩
      (by decide) (by decide) (by decide) (by decide)]
    norm_num [FloatParts.val]
  · simp [parse_market_value]
  · simp [parse_market_value]

/-! ## Catalog lemmas -/

theorem dictGet_dictInsert_self (k : String) (v : Player) (l : List (String × Player)) :
    dictGet k (dictInsert k v l) = some v := by
  induction l with
  | nil => simp [dictInsert, dictGet]
  | cons e t ih =>
    by_cases h : e.1 = k
    · simp [dictInsert, dictGet, h]
    · simp [dictInsert, dictGet, h, ih]

theorem dictGet_dictInsert_ne (k q : String) (v : Player) (l : List (String × Player))
    (h : q ≠ k) : dictGet q (dictInsert k v l) = dictGet q l := by
  have h' : ¬ (k = q) := fun hh => h hh.symm
  induction l with
  | nil => simp [dictInsert, dictGet, h']
  | cons e t ih =>
    by_cases he : e.1 = k
    · have hq' : ¬ (e.1 = q) := by rw [he]; exact h'
      simp [dictInsert, dictGet, he, h', hq']
    · by_cases hq : e.1 = q
      · simp [dictInsert, dictGet, he, hq, h]
      · simp [dictInsert, dictGet, he, hq, ih]

theorem get_scouted_store_lower (c : Catalog) (n m : String) (p : Player)
    (h : strLower m = strLower n) :
    get_scouted_player (scout_store c n p) m = some p := by
  unfold get_scouted_player scout_store
  rw [h]
  exact dictGet_dictInsert_self (strLower n) p c.players

/-- C8: storing a player under a name and querying any case variant of that
name (same lower-casing) returns the same player. -/
theorem get_after_store_case_insensitive (c : Catalog) (n m : String) (p : Player)
    (h : strLower m = strLower n) :
    get_scouted_player (scout_store c n p) m = some p :=
  get_scouted_store_lower c n m p h

theorem get_after_store_case_insensitive_witness :
    strLower "test player" = strLower "Test Player" ∧
    get_scouted_player (scout_store { players := [] } "Test Player" (plainPlayer "Test Player"))
        "test player" = some (plainPlayer "Test Player") :=
  ⟨by decide,
   get_after_store_case_insensitive { players := [] } "Test Player" "test player"
     (plainPlayer "Test Player") (by decide)⟩

/-- C10: a successful scout keys the new entry by the lower-cased query
string, not by the player's display name: a later lookup sees the new
player exactly on case variants of the query, any other lookup sees the
prior catalog unchanged, and when the player was not already stored a
lookup returns the new player precisely on case variants of the query. -/
theorem scout_store_keyed_by_query (c : Catalog) (q : String) (p : Player) (r : String) :
    (strLower r = strLower q → get_scouted_player (scout_store c q p) r = some p) ∧
    (strLower r ≠ strLower q →
      get_scouted_player (scout_store c q p) r = get_scouted_player c r) ∧
    ((∀ k, dictGet k c.players ≠ some p) →
      (get_scouted_player (scout_store c q p) r = some p ↔ strLower r = strLower q)) := by
  have hne : strLower r ≠ strLower q →
      get_scouted_player (scout_store c q p) r = get_scouted_player c r := by
    intro h
    unfold get_scouted_player scout_store
    exact dictGet_dictInsert_ne (strLower q) (strLower r) p c.players h
  refine ⟨fun h => get_scouted_store_lower c q r p h, hne, fun hfresh => ?_⟩
  constructor
  · intro hget
    by_contra hcase
    rw [hne hcase] at hget
    exact hfresh (strLower r) hget
  · exact fun h => get_scouted_store_lower c q r p h

theorem scout_store_keyed_by_query_witness :
    get_scouted_player
        (scout_store { players := [("rival", plainPlayer "Rival")] } "Query Name"
          (plainPlayer "Display Name")) "query name" = some (plainPlayer "Display Name") ∧
    get_scouted_player
        (scout_store { players := [("rival", plainPlayer "Rival")] } "Query Name"
          (plainPlayer "Display Name")) "Display Name" = none := by
  constructor
  · exact (scout_store_keyed_by_query { players := [("rival", plainPlayer "Rival")] }
      "Query Name" (plainPlayer "Display Name") "query name").1 (by decide)
  · rw [(scout_store_keyed_by_query { players := [("rival", plainPlayer "Rival")] }
      "Query Name" (plainPlayer "Display Name") "Display Name").2.1 (by decide)]
    decide

/-- C9 counterexample: a SeasonRecord with a negative goals counter is
constructible, so not every constructible SeasonRecord has non-negative
counters. -/
theorem seasonStats_negative_counter :
    ({ season := "2024", goals := -5 } : SeasonStats).goals < 0 := by decide

/-- C9 amended: the six counters are plain integers that each default to
zero when not supplied; non-negativity is not enforced. -/
theorem seasonStats_defaults :
    (({ season := "2024" } : SeasonStats).appearances = 0 ∧
      ({ season := "2024" } : SeasonStats).goals = 0 ∧
      ({ season := "2024" } : SeasonStats).assists = 0 ∧
      ({ season := "2024" } : SeasonStats).yellow_cards = 0 ∧
      ({ season := "2024" } : SeasonStats).red_cards = 0 ∧
      ({ season := "2024" } : SeasonStats).minutes_played = 0) ∧
    (({ season := "2024", appearances := 30, goals := 15, assists := 10 } : SeasonStats).yellow_cards = 0 ∧
      ({ season := "2024", appearances := 30, goals := 15, assists := 10 } : SeasonStats).red_cards = 0 ∧
      ({ season := "2024", appearances := 30, goals := 15, assists := 10 } : SeasonStats).minutes_played = 0) := by
  decide

/-- C6: `find_hidden_gems` never reads its `max_value` argument, so any two
ceilings give identical results. -/
theorem find_hidden_gems_ignores_max_value (c : Catalog) (v1 v2 : ℚ) (min_appearances : Int) :
    find_hidden_gems c v1 min_appearances = find_hidden_gems c v2 min_appearances := rfl

/-- C2 counterexample: on an empty catalog the comparison raises
(`Except.error`) instead of reporting a value, and two case variants of
one stored name are counted as 2 resolutions, so a single distinct player
already yields a comparison. -/
theorem compare_players_raises_on_few :
    compare_players { players := [] } ["a", "b"] =
      Except.error (ScoutError.noPlayersScouted "Need at least 2 scouted players to compare") ∧
    isOkB (compare_players { players := [("x", plainPlayer "X")] } ["x", "X"]) = true := by
  constructor
  · rfl
  · rfl

/-- C2 amended: `compare_players` raises `NoPlayersScoutedError` exactly
when fewer than 2 of the requested names (counted with multiplicity)
resolve to stored players, and otherwise returns the comparison text. -/
theorem compare_players_error_iff (c : Catalog) (names : List String) :
    (((names.map fun n => dictGet (strLower n) c.players).filterMap id).length < 2 →
      compare_players c names =
        Except.error (ScoutError.noPlayersScouted "Need at least 2 scouted players to compare")) ∧
    (2 ≤ ((names.map fun n => dictGet (strLower n) c.players).filterMap id).length →
      isOkB (compare_players c names) = true) := by
  constructor
  · intro h
    simp only [compare_players, if_pos h]
  · intro h
    simp only [compare_players, if_neg (Nat.not_lt.mpr h), isOkB]

theorem compare_players_error_iff_witness :
    compare_players { players := [] } ["p", "q"] =
      Except.error (ScoutError.noPlayersScouted "Need at least 2 scouted players to compare") ∧
    isOkB (compare_players
        { players := [("alpha one", plainPlayer "Alpha One"),
                      ("beta two", plainPlayer "Beta Two")] }
        ["Alpha One", "Beta Two"]) = true := by
  constructor
  · exact (compare_players_error_iff { players := [] } ["p", "q"]).1 (by decide)
  · exact (compare_players_error_iff
      { players := [("alpha one", plainPlayer "Alpha One"),
                    ("beta two", plainPlayer "Beta Two")] }
      ["Alpha One", "Beta Two"]).2 (by decide)

/-- C3: normalized totals are the elementwise sums; each per-game rate is
total / total_appearances when that is positive and exactly 0 otherwise;
each per-90 rate is (total / total_minutes) * 90 when total_minutes is
positive and exactly 0 otherwise.  Over `ℚ` no division error, NaN or
infinity can arise. -/
theorem normalize_stats_spec (seasons : List SeasonStats) :
    (normalize_stats seasons).total_goals = (seasons.map fun s => s.goals).sum ∧
    (normalize_stats seasons).total_assists = (seasons.map fun s => s.assists).sum ∧
    (normalize_stats seasons).total_appearances = (seasons.map fun s => s.appearances).sum ∧
    (normalize_stats seasons).total_minutes = (seasons.map fun s => s.minutes_played).sum ∧
    (¬ 0 < (normalize_stats seasons).total_appearances →
      (normalize_stats seasons).goals_per_game = 0 ∧
      (normalize_stats seasons).assists_per_game = 0 ∧
      (normalize_stats seasons).minutes_per_game = 0) ∧
    (0 < (normalize_stats seasons).total_appearances →
      (normalize_stats seasons).goals_per_game =
        ((normalize_stats seasons).total_goals : ℚ) /
          ((normalize_stats seasons).total_appearances : ℚ) ∧
      (normalize_stats seasons).assists_per_game =
        ((normalize_stats seasons).total_assists : ℚ) /
          ((normalize_stats seasons).total_appearances : ℚ) ∧
      (normalize_stats seasons).minutes_per_game =
        ((normalize_stats seasons).total_minutes : ℚ) /
          ((normalize_stats seasons).total_appearances : ℚ)) ∧
    (¬ 0 < (normalize_stats seasons).total_minutes →
      (normalize_stats seasons).goals_per_90 = 0 ∧
      (normalize_stats seasons).assists_per_90 = 0) ∧
    (0 < (normalize_stats seasons).total_minutes →
      (normalize_stats seasons).goals_per_90 =
        (((normalize_stats seasons).total_goals : ℚ) /
          ((normalize_stats seasons).total_minutes : ℚ)) * 90 ∧
      (normalize_stats seasons).assists_per_90 =
        (((normalize_stats seasons).total_assists : ℚ) /
          ((normalize_stats seasons).total_minutes : ℚ)) * 90) := by
  simp only [normalize_stats]
  refine ⟨trivial, trivial, trivial, trivial,
    fun h => ?_, fun h => ?_, fun h => ?_, fun h => ?_⟩
  · simp [if_neg h]
  · simp [if_pos h]
  · simp [if_neg h]
  · simp [if_pos h]

theorem normalize_stats_spec_witness :
    0 < (normalize_stats sampleSeasons).total_appearances ∧
    (normalize_stats sampleSeasons).goals_per_game = 5 / 11 ∧
    0 < (normalize_stats sampleSeasons).total_minutes ∧
    (normalize_stats sampleSeasons).goals_per_90 = 1 / 2 := by
  have h := normalize_stats_spec sampleSeasons
  have happ : 0 < (normalize_stats sampleSeasons).total_appearances := by
    rw [h.2.2.1]; decide
  have hmin : 0 < (normalize_stats sampleSeasons).total_minutes := by
    rw [h.2.2.2.1]; decide
  refine ⟨happ, ?_, hmin, ?_⟩
  · rw [(h.2.2.2.2.2.1 happ).1, h.1, h.2.2.1]
    norm_num [sampleSeasons]
  · rw [(h.2.2.2.2.2.2.2 hmin).1, h.1, h.2.2.2.1]
    norm_num [sampleSeasons]

end FootballScout

namespace FootballScout

/-- C4: the value score is 0 when normalized stats are absent or the parsed
market value is ≤ 0, and otherwise equals
((goals_per_90 * 10 + assists_per_90 * 5) / market value) * 10,000,000. -/
theorem calculate_value_score_spec (player : Player) :
    (player.normalized_stats = none → calculate_value_score player = 0) ∧
    (parse_market_value player.info.market_value ≤ 0 → calculate_value_score player = 0) ∧
    (∀ stats, player.normalized_stats = some stats →
      0 < parse_market_value player.info.market_value →
      calculate_value_score player =
        ((stats.goals_per_90 * 10 + stats.assists_per_90 * 5) /
            parse_market_value player.info.market_value) * 10000000) := by
  refine ⟨fun h => ?_, fun h => ?_, fun stats hs h => ?_⟩
  · simp [calculate_value_score, h]
  · cases hstats : player.normalized_stats with
    | none => simp [calculate_value_score, hstats]
    | some s => simp [calculate_value_score, hstats, if_pos h]
  · simp [calculate_value_score, hs, if_neg (not_le.mpr h)]

theorem calculate_value_score_spec_witness :
    calculate_value_score samplePlayer = 34 / 5 := by
  have hmv : parse_market_value samplePlayer.info.market_value = 10000000 := by
    show parse_market_value (some "€10.00m") = 10000000
    rw [parse_mv_of_m "€10.00m" ['1', '0', '.', '0', '0', 'm'] ⟨1, 1000, 2, 0⟩
      (by decide) (by decide) (by decide) (by decide)]
    norm_num [FloatParts.val]
  have h := (calculate_value_score_spec samplePlayer).2.2 sampleNormalized rfl
    (by rw [hmv]; norm_num)
  rw [h, hmv]
  norm_num [sampleNormalized]

/-- C7: the age-aligned snapshot is absent when the current age is not
parseable from the free-text age field or when
`seasons_back = current_age - target_age` falls outside the season list,
and otherwise is the season at index `seasons_back` (0 = most recent)
with that single season's goals-per-game (0 when its appearances are 0). -/
theorem get_stats_at_age_spec (player : Player) (target_age : Int) :
    (parse_age player.info.age = none → get_stats_at_age player target_age = none) ∧
    (∀ ca, parse_age player.info.age = some ca →
      ((ca : Int) - target_age < 0 ∨ (player.seasons.length : Int) ≤ (ca : Int) - target_age) →
      get_stats_at_age player target_age = none) ∧
    (∀ ca ts, parse_age player.info.age = some ca →
      0 ≤ (ca : Int) - target_age →
      player.seasons.get? ((ca : Int) - target_age).toNat = some ts →
      get_stats_at_age player target_age =
        some { season := ts.season, goals := ts.goals, assists := ts.assists,
               appearances := ts.appearances, minutes := ts.minutes_played,
               goals_per_game :=
                 if 0 < ts.appearances then (ts.goals : ℚ) / (ts.appearances : ℚ)
                 else 0 }) := by
  refine ⟨fun h => ?_, fun ca hca hout => ?_, fun ca ts hca hnn hget => ?_⟩
  · cases he : player.seasons.isEmpty with
    | true => simp [get_stats_at_age, he]
    | false => simp [get_stats_at_age, he, h]
  · cases he : player.seasons.isEmpty with
    | true => simp [get_stats_at_age, he]
    | false =>
      simp only [get_stats_at_age, he, Bool.false_eq_true, if_false, hca]
      rw [if_pos hout]
  · obtain ⟨hb, -⟩ := List.get?_eq_some.mp hget
    have hempty : player.seasons.isEmpty = false := by
      cases hs : player.seasons with
      | nil => rw [hs] at hb; simp at hb
      | cons a t => rfl
    have hbound : ¬ ((ca : Int) - target_age < 0 ∨
        (player.seasons.length : Int) ≤ (ca : Int) - target_age) := by
      push_neg
      refine ⟨hnn, ?_⟩
      have ht := Int.toNat_of_nonneg hnn
      omega
    simp only [get_stats_at_age, hempty, Bool.false_eq_true, if_false, hca, if_neg hbound, hget]

theorem get_stats_at_age_spec_witness :
    get_stats_at_age samplePlayer 22 =
      some { season := "2023", goals := 10, assists := 8, appearances := 25,
             minutes := 2000, goals_per_game := 2 / 5 } := by
  have h := (get_stats_at_age_spec samplePlayer 22).2.2 23
    { season := "2023", appearances := 25, goals := 10, assists := 8,
      yellow_cards := 2, red_cards := 0, minutes_played := 2000 }
    (by decide) (by decide) (by decide)
  rw [h]
  norm_num

end FootballScout

namespace FootballScout

theorem filterMap_gemCandidate (minApp : Int) (l : List Player) :
    l.filterMap (gemCandidate minApp) =
      (l.filter (qualifies minApp)).map fun p => (p, calculate_value_score p) := by
  induction l with
  | nil => rfl
  | cons a t ih =>
    cases hns : a.normalized_stats with
    | none => simp [List.filterMap_cons, List.filter_cons, gemCandidate, qualifies, hns, ih]
    | some ns =>
      by_cases happ : ns.total_appearances < minApp
      · have hq : ¬ (minApp ≤ ns.total_appearances) := not_le.mpr happ
        simp [List.filterMap_cons, List.filter_cons, gemCandidate, qualifies, hns, happ, hq, ih]
      · by_cases hsc : 0 < calculate_value_score a
        · simp [List.filterMap_cons, List.filter_cons, gemCandidate, qualifies, hns, happ,
            not_lt.mp happ, hsc, ih]
        · simp [List.filterMap_cons, List.filter_cons, gemCandidate, qualifies, hns, happ,
            hsc, ih]

theorem filter_orderedInsert (v : ℚ) (a : Player × ℚ) (l : List (Player × ℚ)) :
    (List.orderedInsert scoreGe a l).filter (fun x => x.2 = v) =
      if a.2 = v then a :: l.filter (fun x => x.2 = v)
      else l.filter (fun x => x.2 = v) := by
  induction l with
  | nil => by_cases h : a.2 = v <;> simp [List.orderedInsert, List.filter, h]
  | cons b t ih =>
    by_cases hab : scoreGe a b
    · by_cases ha : a.2 = v <;>
        simp [List.orderedInsert, if_pos hab, List.filter_cons, ha]
    · have hlt : a.2 < b.2 := not_le.mp hab
      by_cases ha : a.2 = v
      · have hb : b.2 ≠ v := ha ▸ ne_of_gt hlt
        simp [List.orderedInsert, if_neg hab, List.filter_cons, ha, hb, ih]
      · simp [List.orderedInsert, if_neg hab, List.filter_cons, ha, ih]

theorem filter_insertionSort (v : ℚ) (l : List (Player × ℚ)) :
    (List.insertionSort scoreGe l).filter (fun x => x.2 = v) =
      l.filter (fun x => x.2 = v) := by
  induction l with
  | nil => rfl
  | cons a t ih =>
    by_cases ha : a.2 = v <;>
      simp [List.insertionSort, filter_orderedInsert, ih, List.filter_cons, ha]

/-- C5: `find_hidden_gems` returns exactly the stored players with
normalized stats, enough appearances and a positive value score, paired
with that score: the result is a permutation of the qualifying entries in
catalog insertion order, it is sorted descending by score, and within each
tied score the catalog insertion order is preserved (stability). -/
theorem find_hidden_gems_spec (c : Catalog) (max_value : ℚ) (min_appearances : Int) :
    List.Perm (find_hidden_gems c max_value min_appearances)
        (((get_all_scouted_players c).filter (qualifies min_appearances)).map
          fun p => (p, calculate_value_score p)) ∧
    List.Pairwise scoreGe (find_hidden_gems c max_value min_appearances) ∧
    ∀ v : ℚ, (find_hidden_gems c max_value min_appearances).filter (fun x => x.2 = v) =
      (((get_all_scouted_players c).filter (qualifies min_appearances)).map
        fun p => (p, calculate_value_score p)).filter (fun x => x.2 = v) := by
  refine ⟨?_, ?_, fun v => ?_⟩
  · unfold find_hidden_gems get_all_scouted_players
    rw [filterMap_gemCandidate]
    exact List.perm_insertionSort scoreGe _
  · exact List.sorted_insertionSort scoreGe _
  · unfold find_hidden_gems get_all_scouted_players
    rw [filter_insertionSort, filterMap_gemCandidate]

end FootballScout
